import Mathlib

/-!
Verification development for the Trackfy `fy-engine` conversational pipeline.

The Python modules under `fy-engine/` are shallowly embedded here:

* `intent/classifier.py`  → `classify_intent`, `needs_analysis`
* `intent/entities.py`    → `extract_entities`, `get_entities_for_analysis`
* `llm/prompts.py`        → the prompt templates, `get_prompt_for_intent`,
                            `get_mood_from_risk`
* `llm/client.py`         → `generate_response`
* `services/analysis.py`  → `analyze_entities`, `analyze_url`, `analyze_email`,
                            `analyze_phone`
* `main.py`               → `chat`

External collaborators (the PII anonymizer/verifier, the HTTP analysis
service, the LLM generator) are modelled as explicit function parameters;
an HTTP exchange is an `Except` value carrying either a transport error or
a status code and a parsed JSON object.  Python floats in the classifier
are exact small integers and exact divisions, so they are modelled as `ℚ`.
Python's `re.finditer`/`re.search` (leftmost match, left-biased alternation,
greedy backtracking quantifiers, case-insensitive literals under
`re.IGNORECASE`) are modelled by a fuel-bounded backtracking matcher over
an explicit regex syntax; `\w`, `\s`, `str.lower` are modelled over ASCII.
-/

set_option maxRecDepth 200000

/-! ### Basic character and string helpers -/

/-- Python `\s` (ASCII whitespace as used by `str.strip` and `re`). -/
def isSpaceC (c : Char) : Bool :=
  c = ' ' || c = '\t' || c = '\n' || c = '\r' || c = Char.ofNat 11 || c = Char.ofNat 12

/-- Python `\w` (ASCII approximation: alphanumeric or underscore). -/
def isWordC (c : Char) : Bool := c.isAlphanum || c = '_'

/-- ASCII `str.lower`. -/
def lowerStr (s : String) : String := String.mk (s.data.map Char.toLower)

/-- `needle` is an initial segment of `hay`. -/
def leadMatch : List Char → List Char → Bool
  | [], _ => true
  | _ :: _, [] => false
  | c :: cs, d :: ds => c = d && leadMatch cs ds

/-- Python's `needle in hay` substring test. -/
def hasSub (needle hay : List Char) : Bool :=
  match hay with
  | [] => needle.isEmpty
  | _ :: t => leadMatch needle hay || hasSub needle t

/-- Substring of a char list by half-open index range, as a `String`. -/
def sliceStr (s : List Char) (a b : Nat) : String :=
  String.mk ((s.drop a).take (b - a))

/-- Python `str.strip()` (whitespace from both ends). -/
def stripStr (s : String) : String :=
  String.mk (((s.data.dropWhile isSpaceC).reverse.dropWhile isSpaceC).reverse)

/-! ### A small backtracking regex engine (Python `re` semantics)

Literals compare case-insensitively (all the embedded patterns are compiled
with `re.IGNORECASE`).  `star` is greedy; `alt` prefers its left branch;
`bnd` is the `\b` word boundary.  `marun` explores the backtracking tree in
exactly Python's preference order and returns the first successful end
position, with a fuel bound for termination. -/

inductive RE where
  | eps : RE
  | lit : Char → RE
  | cls : (Char → Bool) → RE
  | seq : RE → RE → RE
  | alt : RE → RE → RE
  | star : RE → RE
  | bnd : RE

/-- Is position `i` of `s` at a `\b` word boundary? -/
def atBoundary (s : List Char) (i : Nat) : Bool :=
  let before := if i = 0 then false else
    match s.get? (i - 1) with
    | some c => isWordC c
    | none => false
  let here :=
    match s.get? i with
    | some c => isWordC c
    | none => false
  before != here

/-- Backtracking matcher in continuation-passing style: try to match `r`
at position `i` of `s`, calling `k` on each candidate end position in
Python's preference order; the first success wins. -/
def marun : Nat → RE → List Char → Nat → (Nat → Option Nat) → Option Nat
  | 0, _, _, _, _ => none
  | _ + 1, RE.eps, _, i, k => k i
  | _ + 1, RE.lit c, s, i, k =>
    match s.get? i with
    | some d => if d.toLower = c.toLower then k (i + 1) else none
    | none => none
  | _ + 1, RE.cls f, s, i, k =>
    match s.get? i with
    | some d => if f d then k (i + 1) else none
    | none => none
  | fuel + 1, RE.seq a b, s, i, k =>
    marun fuel a s i (fun j => marun fuel b s j k)
  | fuel + 1, RE.alt a b, s, i, k =>
    match marun fuel a s i k with
    | some e => some e
    | none => marun fuel b s i k
  | fuel + 1, RE.star a, s, i, k =>
    match marun fuel a s i
        (fun j => if i < j then marun fuel (RE.star a) s j k else none) with
    | some e => some e
    | none => k i
  | _ + 1, RE.bnd, s, i, k =>
    if atBoundary s i then k i else none

/-- Fuel sufficient for all the (short) patterns embedded below. -/
def reFuel (s : List Char) : Nat := (s.length + 2) * 200

/-- End position of the match of `r` anchored at position `i`, if any
(Python's preference order: the first end the backtracker reaches). -/
def matchAt (r : RE) (s : List Char) (i : Nat) : Option Nat :=
  marun (reFuel s) r s i some

/-- `re.finditer`: non-overlapping matches, scanning start positions left to
right, as `(start, end)` index pairs. -/
def findIterGo (r : RE) (s : List Char) : Nat → Nat → List (Nat × Nat)
  | 0, _ => []
  | fuel + 1, i =>
    if i > s.length then []
    else
      match matchAt r s i with
      | some e => (i, e) :: findIterGo r s fuel (if i < e then e else i + 1)
      | none => findIterGo r s fuel (i + 1)

def findIter (r : RE) (s : List Char) : List (Nat × Nat) :=
  findIterGo r s (s.length + 2) 0

/-- `re.search` as a Boolean. -/
def reSearch (r : RE) (s : List Char) : Bool :=
  !(findIter r s).isEmpty

/-! #### Regex construction helpers -/

def reSeqList (l : List RE) : RE := l.foldr RE.seq RE.eps

/-- A case-insensitive literal string. -/
def reStr (s : String) : RE := reSeqList (s.data.map RE.lit)

def reOpt (r : RE) : RE := RE.alt r RE.eps

def rePlus (r : RE) : RE := RE.seq r (RE.star r)

/-- Left-biased alternation of a list (Python `a|b|c`). -/
def reAltList : List RE → RE
  | [] => RE.cls (fun _ => false)
  | [r] => r
  | r :: rest => RE.alt r (reAltList rest)

/-- `r{n}`. -/
def reRep (r : RE) : Nat → RE
  | 0 => RE.eps
  | n + 1 => RE.seq r (reRep r n)

def clsDigit : RE := RE.cls Char.isDigit

/-- `[6789]`. -/
def cls6789 : RE := RE.cls (fun c => c = '6' || c = '7' || c = '8' || c = '9')

/-- `[\s.-]`. -/
def clsSep : RE := RE.cls (fun c => isSpaceC c || c = '.' || c = '-')

/-- `[\w]` / `\w`. -/
def clsWord : RE := RE.cls isWordC

/-- `[\w-]`. -/
def clsWordDash : RE := RE.cls (fun c => isWordC c || c = '-')

/-- `[^\s<>"\']` (the URL-tail class; `Char.ofNat 39` is the apostrophe). -/
def clsUrlTail : RE :=
  RE.cls (fun c => !(isSpaceC c || c = '<' || c = '>' || c = '"' || c = Char.ofNat 39))

/-- `[a-zA-Z]`. -/
def clsAlpha : RE := RE.cls Char.isAlpha

/-- `[a-zA-Z0-9._%+-]` (email local part). -/
def clsLocal : RE :=
  RE.cls (fun c => c.isAlphanum || c = '.' || c = '_' || c = '%' || c = '+' || c = '-')

/-- `[a-zA-Z0-9.-]` (email domain part). -/
def clsDomChar : RE := RE.cls (fun c => c.isAlphanum || c = '.' || c = '-')

/-! ### `intent/classifier.py` -/

/-- `Intent` enum, in Python declaration order
(`ANALYSIS, NEEDS_INFO, QUESTION, RESCUE, REPORT, SMALLTALK`). -/
inductive Intent where
  | analysis
  | needs_info
  | question
  | rescue
  | report
  | smalltalk
deriving DecidableEq, Repr

/-- `Intent.value` strings of the Python enum. -/
def Intent.value : Intent → String
  | .analysis => "analysis"
  | .needs_info => "needs_info"
  | .question => "question"
  | .rescue => "rescue"
  | .report => "report"
  | .smalltalk => "smalltalk"

structure IntentResult where
  intent : Intent
  confidence : ℚ
  trigger_words : List String
deriving DecidableEq, Repr

/-- `INTENT_PATTERNS[...]["keywords"]`, transcribed verbatim. -/
def keywordsOf : Intent → List String
  | .analysis =>
    ["mira esto", "es seguro", "es legítimo", "me llegó", "me han enviado",
     "qué opinas de", "analiza", "verifica", "comprueba", "revisar",
     "este enlace", "esta url", "este link", "este mensaje", "este sms",
     "este email", "este correo", "este número", "este teléfono",
     "me llamaron", "me escribieron", "es real", "es falso", "es phishing",
     "es estafa", "parece sospechoso", "no me fío", "será verdad"]
  | .rescue =>
    ["me han estafado", "he sido víctima", "me robaron", "me engañaron",
     "di mis datos", "metí mi tarjeta", "puse mi contraseña",
     "he instalado", "descargué algo", "ayuda urgente", "emergencia",
     "qué hago ahora", "es tarde", "ya di", "ya puse", "ya metí",
     "creo que me han", "me hackearon"]
  | .needs_info =>
    ["me llegó un mensaje", "me llegó un sms", "me ha llegado",
     "recibí un mensaje", "recibí un sms", "recibí un email", "recibí un correo",
     "me llamaron", "me han llamado", "llamada de un número",
     "número desconocido", "número que no conozco", "número raro",
     "mensaje sospechoso", "sms sospechoso", "email sospechoso", "correo sospechoso",
     "mensaje raro", "sms raro", "email raro", "correo raro",
     "me escribieron", "me contactaron", "me mandaron algo",
     "no sé quién es", "no sé de quién es", "no reconozco",
     "dice que soy", "dicen que debo", "dice que tengo",
     "supuestamente de", "haciéndose pasar", "se hace pasar"]
  | .question =>
    ["qué es", "cómo funciona", "cómo puedo", "qué significa",
     "por qué", "explícame", "cuéntame", "dime", "qué hago si",
     "cómo sé si", "cómo protegerme", "es seguro usar", "recomiendas",
     "qué opinas", "consejos", "tips"]
  | .report =>
    ["reportar", "reportar estafa", "quiero reportar", "denunciar",
     "quiero denunciar", "reportar fraude", "avisar de una estafa",
     "informar de estafa", "reportar número", "reportar enlace",
     "reportar email", "reportar página"]
  | .smalltalk =>
    ["hola", "buenas", "hey", "qué tal", "cómo estás",
     "gracias", "vale", "ok", "perfecto", "genial",
     "adiós", "hasta luego", "chao"]

/-- `INTENT_PATTERNS[Intent.ANALYSIS]["patterns"]`: each entry is the raw
pattern text (used for `"pattern:..."` trigger strings) paired with its
compiled form. -/
def analysisRePatterns : List (String × RE) :=
  [("https?://",
    RE.seq (reStr "http") (RE.seq (reOpt (RE.lit 's')) (reStr "://"))),
   ("bit\\.ly|tinyurl",
    RE.alt (reStr "bit.ly") (reStr "tinyurl")),
   ("@\\w+\\.\\w+",
    reSeqList [RE.lit '@', rePlus clsWord, RE.lit '.', rePlus clsWord]),
   ("\\+?34[\\s.-]?[6789]",
    reSeqList [reOpt (RE.lit '+'), reStr "34", reOpt clsSep, cls6789]),
   ("\\b[6789][\\s.-]?\\d{2}[\\s.-]?\\d{2,3}[\\s.-]?\\d{2,3}\\b",
    reSeqList [RE.bnd, cls6789, reOpt clsSep, clsDigit, clsDigit,
               reOpt clsSep, clsDigit, clsDigit, reOpt clsDigit,
               reOpt clsSep, clsDigit, clsDigit, reOpt clsDigit, RE.bnd]),
   ("\\b[\\w-]+\\.(?:es|com|org|net|info|tk|xyz|gob\\.es)\\b",
    reSeqList [RE.bnd, rePlus clsWordDash, RE.lit '.',
               reAltList (["es", "com", "org", "net", "info", "tk", "xyz",
                           "gob.es"].map reStr), RE.bnd])]

/-- `INTENT_PATTERNS[...]["patterns"]` (only `ANALYSIS` has any). -/
def rePatternsOf : Intent → List (String × RE)
  | .analysis => analysisRePatterns
  | _ => []

/-- The keywords of `i` found in the lower-cased text, in list order
(each adds `1.0` to the score and is recorded as a trigger). -/
def kwTriggerList (i : Intent) (textLower : String) : List String :=
  (keywordsOf i).filter (fun k => hasSub k.data textLower.data)

/-- The patterns of `i` matching the raw text, as `"pattern:..."` trigger
strings, in list order (each adds `2.0` to the score). -/
def patTriggerList (i : Intent) (text : String) : List String :=
  (rePatternsOf i).filterMap
    (fun p => if reSearch p.2 text.data then some ("pattern:" ++ p.1) else none)

/-- `scores[intent]` after the scoring loops of `classify_intent`.  The
Python scores are floats, but every value is a sum of `1.0`s and `2.0`s —
an exact small integer — so they are modelled as naturals (all comparisons
in the code are exact on such floats). -/
def intentScore (i : Intent) (text : String) : ℕ :=
  (kwTriggerList i (lowerStr text)).length + 2 * (patTriggerList i text).length

/-- `triggers[intent]` after the scoring loops of `classify_intent`. -/
def intentTriggers (i : Intent) (text : String) : List String :=
  kwTriggerList i (lowerStr text) ++ patTriggerList i text

/-- `has_analyzable_entity`: some `ANALYSIS` regex pattern matches the text. -/
def hasAnalyzableEntity (text : String) : Bool :=
  analysisRePatterns.any (fun p => reSearch p.2 text.data)

/-- Python `max(remaining_intents, key=remaining_intents.get)` as a fold:
the current best is replaced only on a strictly greater score, so the first
of several equal maxima wins. -/
def pyMaxGo (f : Intent → ℕ) : Intent → List Intent → Intent
  | best, [] => best
  | best, i :: rest => pyMaxGo f (if f best < f i then i else best) rest

/-- The keys of `remaining_intents` in iteration order: `Intent` declaration
order with `NEEDS_INFO` removed. -/
def remainingIntents : List Intent :=
  [.analysis, .question, .rescue, .report, .smalltalk]

/-- `classify_intent` from `intent/classifier.py` (confidences are the
exact rational values of the Python float divisions). -/
def classify_intent (text : String) : IntentResult :=
  let hae := hasAnalyzableEntity text
  let sA := intentScore .analysis text
  if 2 ≤ sA then
    ⟨.analysis, min ((sA : ℚ) / 5) 1, intentTriggers .analysis text⟩
  else
    let sR := intentScore .rescue text
    if 0 < sR then
      ⟨.rescue, min ((sR : ℚ) / 3) 1, intentTriggers .rescue text⟩
    else
      let sP := intentScore .report text
      if 0 < sP then
        ⟨.report, min ((sP : ℚ) / 2) 1, intentTriggers .report text⟩
      else
        let sN := intentScore .needs_info text
        if 0 < sN ∧ hae = false then
          ⟨.needs_info, min ((sN : ℚ) / 3) 1, intentTriggers .needs_info text⟩
        else
          let best := pyMaxGo (fun i => intentScore i text) .analysis
            [.question, .rescue, .report, .smalltalk]
          let bestScore := intentScore best text
          if bestScore = 0 then
            ⟨.question, 3 / 10, []⟩
          else
            ⟨best, min ((bestScore : ℚ) / 3) 1, intentTriggers best text⟩

/-- `needs_analysis` from `intent/classifier.py`. -/
def needs_analysis (ir : IntentResult) : Bool :=
  ir.intent = Intent.analysis

/-! ### `intent/entities.py` -/

inductive EntityType where
  | url
  | email
  | phone
deriving DecidableEq, Repr

/-- `Entity` dataclass (`end` is a Lean keyword, so the field is `endPos`). -/
structure Entity where
  type : EntityType
  value : String
  start : Nat
  endPos : Nat
deriving DecidableEq, Repr

/-- `PATTERNS[EntityType.URL]`, in list order. -/
def urlPatterns : List RE :=
  [reSeqList [reStr "http", reOpt (RE.lit 's'), reStr "://", rePlus clsUrlTail],
   reSeqList [reStr "www.", rePlus clsUrlTail],
   reSeqList [reAltList (["bit.ly", "tinyurl.com", "t.co", "goo.gl", "ow.ly",
                          "is.gd", "buff.ly"].map reStr),
              RE.lit '/', rePlus clsUrlTail],
   reSeqList [RE.bnd, clsWord, RE.star clsWordDash, RE.lit '.',
              reAltList (["es", "com", "org", "net", "info", "tk", "xyz", "io",
                          "co", "eu", "me", "tv", "cc", "gob.es", "com.es",
                          "org.es"].map reStr), RE.bnd]]

/-- `PATTERNS[EntityType.EMAIL][0]`. -/
def emailPattern : RE :=
  reSeqList [rePlus clsLocal, RE.lit '@', rePlus clsDomChar, RE.lit '.',
             clsAlpha, rePlus clsAlpha]

/-- `PATTERNS[EntityType.PHONE]`, in list order. -/
def phonePatterns : List RE :=
  [reSeqList [RE.lit '+', reStr "34", reOpt clsSep, cls6789,
              reRep (RE.seq (reOpt clsSep) clsDigit) 8],
   reSeqList [RE.bnd, cls6789, reRep (RE.seq (reOpt clsSep) clsDigit) 8, RE.bnd],
   reSeqList [RE.lit '(', reOpt (RE.lit '+'), reStr "34", RE.lit ')',
              reOpt clsSep, cls6789, reRep (RE.seq (reOpt clsSep) clsDigit) 8]]

/-- The first pass of `extract_entities`: all email matches, as entities
(appended unconditionally, with `.strip()`ed values). -/
def emailEntities (text : String) : List Entity :=
  (findIter emailPattern text.data).map
    (fun m => ⟨.email, stripStr (sliceStr text.data m.1 m.2), m.1, m.2⟩)

/-- Python `email.split('@')[1] if '@' in email else ''`: the part of the
string after the first `'@'` and before any second `'@'`. -/
def afterFirstAt (s : String) : String :=
  match s.data.dropWhile (fun c => c ≠ '@') with
  | [] => ""
  | _ :: rest => String.mk (rest.takeWhile (fun c => c ≠ '@'))

/-- The `email_domains` set (as a list; only membership is used):
lower-cased domains of all email matches, skipping empty domains. -/
def emailDomainsOf (text : String) : List String :=
  (emailEntities text).filterMap
    (fun e =>
      let d := afterFirstAt e.value
      if d = "" then none else some (lowerStr d))

/-- Python `s.split(sep)` for a non-empty separator (accumulator holds the
current segment reversed; fuel is one more than the remaining length). -/
def pySplitGo (sep : List Char) : Nat → List Char → List Char → List (List Char)
  | 0, cur, s => [cur.reverse ++ s]
  | _, cur, [] => [cur.reverse]
  | fuel + 1, cur, c :: t =>
    if leadMatch sep (c :: t) then
      cur.reverse :: pySplitGo sep fuel [] ((c :: t).drop sep.length)
    else
      pySplitGo sep fuel (c :: cur) t

def pySplit (s sep : List Char) : List (List Char) :=
  pySplitGo sep (s.length + 1) [] s

/-- Python `s.replace(pat, rep)` for a non-empty pattern: left-to-right,
non-overlapping. -/
def pyReplaceGo (pat rep : List Char) : Nat → List Char → List Char
  | 0, s => s
  | _, [] => []
  | fuel + 1, c :: t =>
    if leadMatch pat (c :: t) then
      rep ++ pyReplaceGo pat rep fuel ((c :: t).drop pat.length)
    else
      c :: pyReplaceGo pat rep fuel t

def pyReplace (s pat rep : List Char) : List Char :=
  pyReplaceGo pat rep (s.length + 1) s

/-- The URL-domain normalization applied before the suppression check:
lower-case; for values starting with `"http"` and containing `"//"` take
`split('//')[1].split('/')[0]`; then delete every occurrence of `"www."`. -/
def codeNormUrl (value : String) : String :=
  let d := (lowerStr value).data
  let d :=
    if leadMatch "http".data d then
      if hasSub "//".data d then
        ((pySplit ((pySplit d "//".data).getD 1 []) "/".data).headD [])
      else d
    else d
  String.mk (pyReplace d "www.".data [])

/-- A candidate match of the second pass: entity type, `.strip()`ed value,
and span. -/
structure Candidate where
  type : EntityType
  value : String
  start : Nat
  endPos : Nat
deriving DecidableEq, Repr

/-- Candidates of one pattern, in `finditer` order. -/
def patCandidates (t : EntityType) (r : RE) (text : String) : List Candidate :=
  (findIter r text.data).map
    (fun m => ⟨t, stripStr (sliceStr text.data m.1 m.2), m.1, m.2⟩)

/-- All URL candidates then all phone candidates (the `PATTERNS` dict is
iterated in insertion order `URL, EMAIL, PHONE`, with `EMAIL` skipped). -/
def secondPassCandidates (text : String) : List Candidate :=
  (urlPatterns.map (fun r => patCandidates .url r text)).flatten ++
  (phonePatterns.map (fun r => patCandidates .phone r text)).flatten

/-- One step of the second-pass loop body: skip the candidate if its value
was already collected; if it is a URL whose normalized value is a recorded
email domain, skip it; otherwise append it. -/
def addCandidate (emailDomains : List String) (entities : List Entity)
    (c : Candidate) : List Entity :=
  if entities.any (fun e => e.value = c.value) then entities
  else if c.type = EntityType.url ∧ codeNormUrl c.value ∈ emailDomains then entities
  else entities ++ [⟨c.type, c.value, c.start, c.endPos⟩]

/-- `extract_entities` from `intent/entities.py`. -/
def extract_entities (text : String) : List Entity :=
  (secondPassCandidates text).foldl
    (addCandidate (emailDomainsOf text)) (emailEntities text)

/-- The `{urls, emails, phones}` dictionary sent to the analysis service. -/
structure EntDict where
  urls : List String
  emails : List String
  phones : List String
deriving DecidableEq, Repr

/-- `get_entities_for_analysis` from `intent/entities.py`. -/
def get_entities_for_analysis (text : String) : EntDict :=
  let es := extract_entities text
  ⟨(es.filter (fun e => e.type = EntityType.url)).map Entity.value,
   (es.filter (fun e => e.type = EntityType.email)).map Entity.value,
   (es.filter (fun e => e.type = EntityType.phone)).map Entity.value⟩

/-! ### JSON values and Python `str.format`

The analysis collaborator answers with a JSON object; `main.py` and
`llm/client.py` read it with `dict.get`.  Nested values that the pipeline
actually reads are null, booleans, integers, strings, and arrays of strings
(`reasons`), so `JVal` models exactly those. -/

inductive JVal where
  | jnull
  | jbool (b : Bool)
  | jnum (n : Int)
  | jstr (s : String)
  | jarrS (xs : List String)
deriving DecidableEq, Repr

/-- A JSON object, as an association list. -/
def AJson := List (String × JVal)
deriving DecidableEq, Repr

/-- Python `d.get(k)` (default `None`, modelled as `none`). -/
def pyGet (d : AJson) (k : String) : Option JVal :=
  (List.find? (fun kv => kv.1 = k) d).map Prod.snd

/-- Python `d.get(k, default)`. -/
def pyGetD (d : AJson) (k : String) (dflt : JVal) : JVal :=
  (pyGet d k).getD dflt

/-- Python `str(v)` for the scalar values the pipeline prints into prompts
(container values never reach `str` under the collaborator contract, so the
array case is left at a crude rendition). -/
def pyStr : JVal → String
  | .jnull => "None"
  | .jbool true => "True"
  | .jbool false => "False"
  | .jnum n => toString n
  | .jstr s => s
  | .jarrS _ => "[...]"

/-- The `int` read out of a JSON value for `get_mood_from_risk`
(Python booleans are ints; other non-int values are outside the
collaborator contract and default to 0 here). -/
def pyInt : JVal → Int
  | .jnum n => n
  | .jbool true => 1
  | _ => 0

/-- Python `"\n".join l`. -/
def joinNL (l : List String) : String :=
  match l with
  | [] => ""
  | s :: rest => rest.foldl (fun acc t => acc ++ "\n" ++ t) s

/-- Python `template.format(**kwargs)` on the chars of the template:
each `{name}` field is replaced by the value bound to `name`; a field whose
name is not bound raises `KeyError(name)`, modelled as `.error name`.
(The embedded templates use no `{{` escapes and no format specs.)  Each
step consumes at least one character, so fuel `length + 1` is exact. -/
def pyFormatGo (args : List (String × String)) : Nat → List Char → Except String (List Char)
  | 0, s => .ok s
  | _, [] => .ok []
  | fuel + 1, '{' :: rest =>
    let name := rest.takeWhile (fun c => c ≠ '}')
    let rest2 := (rest.dropWhile (fun c => c ≠ '}')).drop 1
    match args.find? (fun kv => kv.1 = String.mk name) with
    | some kv => (pyFormatGo args fuel rest2).map (fun t => kv.2.data ++ t)
    | none => .error (String.mk name)
  | fuel + 1, c :: rest => (pyFormatGo args fuel rest).map (fun t => c :: t)

def pyFormat (tpl : String) (args : List (String × String)) : Except String String :=
  (pyFormatGo args (tpl.data.length + 1) tpl.data).map String.mk

/-! ### `llm/prompts.py` -/

/-- `FY_SYSTEM_PROMPT`, transcribed verbatim. -/
def FY_SYSTEM_PROMPT : String :=
  "Eres Fy, asistente de ciberseguridad de Trackfy.

PERSONALIDAD:
- Cercano y directo. Como un amigo experto.
- Hablas de tú, tono casual pero profesional.
- Explicas sin jerga técnica.
- Emojis: ✅ ⚠️ 🚨 🛡️ 🔍 (solo uno por mensaje)

REGLAS IMPORTANTES:
- MÁXIMO 2-3 frases. Sé muy conciso.
- Primero veredicto + emoji, luego razón breve, luego acción.
- NUNCA digas \"como modelo de IA\" ni \"el análisis técnico\".
- NO repitas información. Una frase = una idea.

CÓMO FUNCIONAS (si preguntan, responde en 1-2 frases MAX):
- Consultas bases de datos de estafas + reportes de usuarios + detección de suplantación de marcas.
- Ejemplo de respuesta: \"🛡️ Comparo lo que me envías con bases de datos de estafas y reportes de usuarios. ¡Pégame un enlace o número y lo verifico!\"

SÉ PROACTIVO - PIDE INFORMACIÓN:
- Si el usuario menciona un mensaje/SMS/llamada sospechosa pero NO incluye el número, email o enlace → PÍDELO para analizarlo.
- Ejemplos de cuándo pedir más info:
  * \"Me llegó un SMS raro\" → Pide que pegue el SMS o el número
  * \"Me llamaron de un número desconocido\" → Pide el número para verificarlo
  * \"Recibí un email sospechoso\" → Pide que reenvíe el contenido o el remitente
  * \"Me mandaron un enlace\" → Pide que pegue el enlace
- Usa 🔍 cuando pides información para analizar.
- Ofrece ayuda concreta: \"Pásame el número/enlace/email y lo verifico en segundos\"

MEMORIA Y CONTEXTO:
- Recuerda lo que el usuario mencionó antes en la conversación.
- Si ya te dio información parcial, conéctala con lo nuevo.
- Si detectas que habla de la misma situación, no pidas datos que ya dio.
- NUNCA vuelvas a saludar si ya lo hiciste antes en la conversación.
- Si ya hubo mensajes previos, responde directamente sin \"Hola\" ni saludos.

CONTEXTO:
- Proteges a usuarios no técnicos (35-65 años, España) de estafas online.
"

/-- `ANALYSIS_PROMPT`, transcribed verbatim (note that it mentions the
format fields `{found_in_db}` and `{source}`). -/
def ANALYSIS_PROMPT : String :=
  "
ANÁLISIS REALIZADO:
Tipo: {entity_type} | Contenido: {content}
Riesgo: {risk_level}/100 | Veredicto: {verdict}
Encontrado en DB: {found_in_db} | Fuente: {source}
Razones: {reasons}

REGLAS PARA TU RESPUESTA (2-3 frases máximo):
1. EMOJI según veredicto: safe=✅ | suspicious=⚠️ | dangerous=🚨
2. EXPLICA el porqué de forma concreta:
   - Si found_in_db=True → \"Este número/URL/email ha sido reportado por otros usuarios como estafa\"
   - Si hay razones específicas (phishing, malware, scam) → menciónalas
   - Si suplanta marca → \"Intenta hacerse pasar por X. El oficial es [dominio]\"
3. ACCIÓN clara al final: \"No contestes\", \"Borra el mensaje\", \"Es seguro, adelante\"

EJEMPLOS BUENOS:
- \"🚨 Este número ha sido reportado por múltiples usuarios como estafa telefónica. No devuelvas la llamada.\"
- \"🚨 URL de phishing detectada. Intenta suplantar a Correos (el oficial es correos.es). No hagas clic.\"
- \"⚠️ Email sospechoso. El dominio no coincide con el oficial de Amazon. No introduzcas datos.\"
- \"✅ Dominio oficial de BBVA verificado. Puedes acceder con tranquilidad.\"

NO digas frases genéricas como \"parece sospechoso\" sin explicar por qué.
"

/-- `RESCUE_PROMPT`, transcribed verbatim. -/
def RESCUE_PROMPT : String :=
  "
SITUACIÓN DE EMERGENCIA:
El usuario indica que: {situation}

Responde como Fy en modo rescate:
1. Primero tranquilízale brevemente (1 frase)
2. Haz UNA pregunta clave para entender mejor qué pasó
3. NO des todos los pasos todavía, espera más información

Mantén la calma, sé empático pero eficiente.
"

/-- `QUESTION_PROMPT`, transcribed verbatim. -/
def QUESTION_PROMPT : String :=
  "
El usuario pregunta sobre: {topic}

Responde como Fy:
- Explica de forma simple y clara
- Usa ejemplos cotidianos si ayuda
- Incluye un consejo práctico al final
"

/-- `SMALLTALK_PROMPT`, transcribed verbatim. -/
def SMALLTALK_PROMPT : String :=
  "
El usuario dice: {message}

Responde como Fy: breve, natural, cercano.
- Si saluda: devuelve el saludo + ofrece ayuda en 1 frase corta.
- NO inventes que \"mencionó algo\" si no lo hizo.
- NO des explicaciones largas ni consejos no pedidos.

Ejemplo: \"Holaaa\" → \"¡Hola! 👋 ¿En qué te ayudo?\"
"

/-- `NEEDS_INFO_PROMPT`, transcribed verbatim. -/
def NEEDS_INFO_PROMPT : String :=
  "
SITUACIÓN: El usuario menciona algo sospechoso pero NO ha proporcionado el dato concreto para analizar.

Mensaje del usuario: {message}
Contexto detectado: {detected_context}

TU RESPUESTA DEBE:
1. Reconocer brevemente la situación (1 frase)
2. Pedir el dato específico que falta para poder ayudarle:
   - Si menciona SMS/mensaje → pide que pegue el contenido o el número
   - Si menciona llamada/número → pide el número de teléfono
   - Si menciona email/correo → pide el email del remitente o el contenido
   - Si menciona enlace/link → pide que pegue la URL
3. Usa 🔍 al inicio
4. Explica que con ese dato puedes verificarlo \"en segundos\"

EJEMPLOS DE RESPUESTAS BUENAS:
- \"🔍 Entiendo, puede ser sospechoso. Pásame el número que te llamó y lo verifico en segundos.\"
- \"🔍 Mejor prevenir. ¿Puedes pegarme el SMS completo o el número? Así compruebo si está reportado.\"
- \"🔍 Buena idea consultarlo. Reenvíame el email o dime el remitente y te digo si es legítimo.\"

Sé breve (2 frases máximo) y proactivo.
"

/-- `REPORT_PROMPT`, transcribed verbatim (it contains no format fields and
is returned as a fixed string). -/
def REPORT_PROMPT : String :=
  "
IMPORTANTE: El usuario quiere REPORTAR una estafa. NO le expliques cómo funciona el sistema de reportes.

RESPONDE EXACTAMENTE CON ESTE FORMATO (una sola frase):
\"🛡️ ¡Gracias por ayudar a la comunidad! Pulsa el botón de abajo para reportar.\"

NO AÑADAS:
- Consejos de seguridad
- Explicaciones de qué hacer después
- Información sobre policía o OSI
- Nada más, solo la frase de arriba o muy similar
"

/-- `get_prompt_for_intent` from `llm/prompts.py`.  `kwargs` holds the
already-stringified keyword arguments; an `.error k` models the `KeyError`
that `str.format` raises when the template field `k` has no argument. -/
def get_prompt_for_intent (intent : String) (kwargs : List (String × String)) :
    Except String String :=
  if intent = "analysis" then pyFormat ANALYSIS_PROMPT kwargs
  else if intent = "rescue" then pyFormat RESCUE_PROMPT kwargs
  else if intent = "question" then pyFormat QUESTION_PROMPT kwargs
  else if intent = "smalltalk" then pyFormat SMALLTALK_PROMPT kwargs
  else if intent = "needs_info" then pyFormat NEEDS_INFO_PROMPT kwargs
  else if intent = "report" then .ok REPORT_PROMPT
  else .ok ""

/-- `get_mood_from_risk` from `llm/prompts.py`. -/
def get_mood_from_risk (risk_level : Int) : String :=
  if 70 ≤ risk_level then "danger"
  else if 40 ≤ risk_level then "warning"
  else if 0 < risk_level then "thinking"
  else "happy"

/-! ### `llm/client.py` -/

/-- A `{role, content}` chat message. -/
structure Msg where
  role : String
  content : String
deriving DecidableEq, Repr

/-- The dictionary returned by `generate_response`
(`error` is only present on the LLM-failure path). -/
structure LLMResult where
  response : String
  mood : String
  error : Option String
deriving DecidableEq, Repr

/-- `_detect_missing_info_context` from `llm/client.py`. -/
def detect_missing_info_context (message : String) : String :=
  let ml := lowerStr message
  let has := fun (w : String) => hasSub w.data ml.data
  let contexts :=
    (if ["sms", "mensaje", "whatsapp", "texto"].any has then
      ["SMS o mensaje de texto (falta el contenido o número del remitente)"] else []) ++
    (if ["llamaron", "llamada", "teléfono", "número", "llamó"].any has then
      ["llamada telefónica (falta el número)"] else []) ++
    (if ["email", "correo", "mail", "gmail", "outlook"].any has then
      ["email o correo (falta el remitente o contenido)"] else []) ++
    (if ["enlace", "link", "url", "página", "web", "sitio"].any has then
      ["enlace o URL (falta la dirección web)"] else [])
  let contexts :=
    if contexts = [] then
      ["contacto sospechoso (falta el número, email o enlace para verificar)"]
    else contexts
  match contexts with
  | [] => ""
  | s :: rest => rest.foldl (fun acc t => acc ++ " / " ++ t) s

/-- Python truthiness of the `analysis_result` argument
(`None` and the empty dict are falsy). -/
def arTruthy (ar : Option AJson) : Bool :=
  match ar with
  | some l => !l.isEmpty
  | none => false

/-- The fixed apologetic fallback reply used when the LLM call fails. -/
def FALLBACK_REPLY : String :=
  "Ups, algo ha fallado por mi parte. ¿Puedes intentarlo de nuevo? 🙏"

/-- The intent dispatch of `generate_response`: computes `(full_message,
mood)` for the LLM call.  An `.error k` is the uncaught `KeyError(k)` from
`str.format` (the `try` block only wraps the LLM call itself). -/
def full_block (intent : String) (user_message : String) (ar : Option AJson) :
    Except String (String × String) :=
  if intent = "analysis" ∧ arTruthy ar then
    let a := ar.getD []
    let reasons :=
      match pyGetD a "reasons" (JVal.jarrS []) with
      | .jarrS xs => xs
      | _ => []
    let reasons_text := joinNL (reasons.map (fun r => "- " ++ r))
    (get_prompt_for_intent "analysis"
        [("entity_type", pyStr (pyGetD a "type" (JVal.jstr "desconocido"))),
         ("content", pyStr (pyGetD a "content" (JVal.jstr ""))),
         ("risk_level", pyStr (pyGetD a "risk_score" (JVal.jnum 0))),
         ("verdict", pyStr (pyGetD a "verdict" (JVal.jstr "desconocido"))),
         ("reasons", if reasons_text = "" then "- Sin información adicional"
                     else reasons_text)]).map
      (fun pa => (user_message ++ "\n\n" ++ pa,
                  get_mood_from_risk (pyInt (pyGetD a "risk_score" (JVal.jnum 0)))))
  else if intent = "rescue" then
    (get_prompt_for_intent "rescue" [("situation", user_message)]).map
      (fun pa => (user_message ++ "\n\n" ++ pa, "danger"))
  else if intent = "question" then
    (get_prompt_for_intent "question" [("topic", user_message)]).map
      (fun pa => (user_message ++ "\n\n" ++ pa, "thinking"))
  else if intent = "needs_info" then
    (get_prompt_for_intent "needs_info"
        [("message", user_message),
         ("detected_context", detect_missing_info_context user_message)]).map
      (fun pa => (user_message ++ "\n\n" ++ pa, "thinking"))
  else
    (get_prompt_for_intent "smalltalk" [("message", user_message)]).map
      (fun pa => (user_message ++ "\n\n" ++ pa, "happy"))

/-- Python `context[-10:]` guarded by `if context:` (both `None` and the
empty list contribute no messages). -/
def ctxWindow (context : Option (List Msg)) : List Msg :=
  match context with
  | none => []
  | some l => l.drop (l.length - 10)

/-- The message list sent to the LLM: the system persona, then the context
window, then the single user message. -/
def buildMessages (context : Option (List Msg)) (full_message : String) : List Msg :=
  ⟨"system", FY_SYSTEM_PROMPT⟩ :: (ctxWindow context ++ [⟨"user", full_message⟩])

/-- `generate_response` from `llm/client.py`, parameterized by the external
LLM call `llm` (which returns the reply text or raises). -/
def generate_response (llm : List Msg → Except String String)
    (user_message : String) (intent : String) (context : Option (List Msg))
    (analysis_result : Option AJson) : Except String LLMResult :=
  match full_block intent user_message analysis_result with
  | .error k => .error k
  | .ok fm =>
    match llm (buildMessages context fm.1) with
    | .ok t => .ok ⟨t, fm.2, none⟩
    | .error e => .ok ⟨FALLBACK_REPLY, "thinking", some e⟩

/-! ### `services/analysis.py`

An HTTP exchange with the analysis collaborator is modelled as
`Except String (Nat × AJson)`: either a transport error / timeout /
JSON-decoding failure (all caught by the same `except` clause), or a
status code with the parsed JSON object of the body. -/

/-- The synthesized fallback dictionary of `analyze_url`
(note: it has no `found_in_db` key). -/
def urlFallback (url : String) : AJson :=
  [("type", JVal.jstr "url"),
   ("content", JVal.jstr url),
   ("risk_score", JVal.jnum 50),
   ("verdict", JVal.jstr "unknown"),
   ("reasons", JVal.jarrS ["No se pudo analizar el enlace. Procede con precaución."])]

/-- The synthesized fallback dictionary of `analyze_email`. -/
def emailFallback (email : String) : AJson :=
  [("type", JVal.jstr "email"),
   ("content", JVal.jstr email),
   ("risk_score", JVal.jnum 50),
   ("verdict", JVal.jstr "unknown"),
   ("reasons", JVal.jarrS ["No se pudo verificar el email."])]

/-- The synthesized fallback dictionary of `analyze_phone`. -/
def phoneFallback (phone : String) : AJson :=
  [("type", JVal.jstr "phone"),
   ("content", JVal.jstr phone),
   ("risk_score", JVal.jnum 50),
   ("verdict", JVal.jstr "unknown"),
   ("reasons", JVal.jarrS ["No se pudo verificar el número."])]

/-- `analyze_url` from `services/analysis.py`: the body is returned only on
a response with status code exactly 200; any other status and any raised
exception fall through to the fallback (no retry). -/
def analyze_url (resp : Except String (Nat × AJson)) (url : String) : AJson :=
  match resp with
  | .ok st => if st.1 = 200 then st.2 else urlFallback url
  | .error _ => urlFallback url

/-- `analyze_email` from `services/analysis.py`. -/
def analyze_email (resp : Except String (Nat × AJson)) (email : String) : AJson :=
  match resp with
  | .ok st => if st.1 = 200 then st.2 else emailFallback email
  | .error _ => emailFallback email

/-- `analyze_phone` from `services/analysis.py`. -/
def analyze_phone (resp : Except String (Nat × AJson)) (phone : String) : AJson :=
  match resp with
  | .ok st => if st.1 = 200 then st.2 else phoneFallback phone
  | .error _ => phoneFallback phone

/-- `analyze_entities` from `services/analysis.py`, parameterized by the
collaborator `svc` (mapping an endpoint kind and an entity value to the
HTTP exchange outcome): strict priority URLs > emails > phones, first
element of the first non-empty array, `none` when all are empty. -/
def analyze_entities (svc : String → String → Except String (Nat × AJson))
    (entities : EntDict) : Option AJson :=
  match entities.urls with
  | u :: _ => some (analyze_url (svc "url" u) u)
  | [] =>
    match entities.emails with
    | e :: _ => some (analyze_email (svc "email" e) e)
    | [] =>
      match entities.phones with
      | p :: _ => some (analyze_phone (svc "phone" p) p)
      | [] => none

/-! ### `main.py` -/

/-- The environment of external collaborators consumed by the `/chat`
endpoint: the PII anonymizer, the analysis service, the LLM, and the PII
output verifier. -/
structure Env where
  anonymize : String → String × List (String × String) × Bool
  analysisResp : String → String → Except String (Nat × AJson)
  llm : List Msg → Except String String
  verify : String → Bool × List JVal

structure ChatRequest where
  user_id : String
  message : String
  context : Option (List Msg)

/-- The `AnalysisTrace` pydantic model, holding the raw `dict.get` reads
(`found_in_db` defaults to `False`, `reasons` to `[]`). -/
structure AnalysisTrace where
  entity_type : Option JVal
  entity_value : Option JVal
  risk_score : Option JVal
  verdict : Option JVal
  found_in_db : JVal
  source : Option JVal
  reasons : JVal
  latency_ms : Option JVal
deriving DecidableEq, Repr

structure ChatResponse where
  response : String
  mood : String
  pii_detected : Bool
  intent : String
  analysis_performed : Bool
  trace : Option AnalysisTrace
deriving DecidableEq, Repr

/-- Step 3 of the `chat` endpoint: the analysis phase, returning
`(analysis_result, analysis_performed)`.  The service is only called when
the intent is `Analysis` and some entity array is non-empty. -/
def analysisPhase (env : Env) (original_message : String) : Option AJson × Bool :=
  if needs_analysis (classify_intent original_message) then
    let entities := get_entities_for_analysis original_message
    if entities.urls ≠ [] ∨ entities.emails ≠ [] ∨ entities.phones ≠ [] then
      (analyze_entities env.analysisResp entities, true)
    else (none, false)
  else (none, false)

/-- The trace record built from a truthy `analysis_result`
(`if analysis_result:` — a `None` or empty result yields no trace). -/
def mkTraceOpt (ar : Option AJson) : Option AnalysisTrace :=
  if arTruthy ar then
    let a := ar.getD []
    some ⟨pyGet a "type", pyGet a "content", pyGet a "risk_score", pyGet a "verdict",
          pyGetD a "found_in_db" (JVal.jbool false), pyGet a "source",
          pyGetD a "reasons" (JVal.jarrS []), pyGet a "latency_ms"⟩
  else none

/-- The `/chat` endpoint from `main.py`.  An `.error k` is an uncaught
Python exception escaping the handler (no `ChatResponse` is produced). -/
def chat (env : Env) (req : ChatRequest) : Except String ChatResponse :=
  let original_message := req.message
  let anon := env.anonymize original_message
  let intent := (classify_intent original_message).intent.value
  let ar := analysisPhase env original_message
  match generate_response env.llm anon.1 intent req.context ar.1 with
  | .error k => .error k
  | .ok lr =>
    let _verdict := env.verify lr.response
    .ok ⟨lr.response, lr.mood, anon.2.2, intent, ar.2, mkTraceOpt ar.1⟩

/-! ### Claim C7: mood thresholds -/

/-- Claim C7: for every integer risk score `s`, `get_mood_from_risk`
returns `danger` for `s ≥ 70`, `warning` for `40 ≤ s < 70`, `thinking` for
`0 < s < 40`, and `happy` for `s = 0`; across the boundary scores
`0, 1, 39, 40, 69, 70, 100` it produces
`happy, thinking, thinking, warning, warning, danger, danger`. -/
theorem C7_mood_thresholds :
    (∀ s : Int,
      (70 ≤ s → get_mood_from_risk s = "danger") ∧
      (40 ≤ s → s < 70 → get_mood_from_risk s = "warning") ∧
      (0 < s → s < 40 → get_mood_from_risk s = "thinking") ∧
      (s = 0 → get_mood_from_risk s = "happy")) ∧
    ([0, 1, 39, 40, 69, 70, 100].map get_mood_from_risk =
      ["happy", "thinking", "thinking", "warning", "warning", "danger", "danger"]) := by
  constructor
  · intro s
    refine ⟨fun h => ?_, fun h h2 => ?_, fun h h2 => ?_, fun h => ?_⟩ <;>
      (unfold get_mood_from_risk; split_ifs <;> first | rfl | omega)
  · rfl

/-- Witness for C7 at the boundary scores 70, 69, 39, and 0. -/
theorem C7_witness :
    get_mood_from_risk 70 = "danger" ∧ get_mood_from_risk 69 = "warning" ∧
    get_mood_from_risk 39 = "thinking" ∧ get_mood_from_risk 0 = "happy" :=
  ⟨(C7_mood_thresholds.1 70).1 (by norm_num),
   (C7_mood_thresholds.1 69).2.1 (by norm_num) (by norm_num),
   (C7_mood_thresholds.1 39).2.2.1 (by norm_num) (by norm_num),
   (C7_mood_thresholds.1 0).2.2.2 rfl⟩

/-! ### Claim C5: dispatch priority -/

/-- Claim C5: `analyze_entities` dispatches exactly one entity by strict
priority URL > Email > Phone — the head of the first non-empty array —
and returns `none` when all three arrays are empty.  Moreover, in the URL
case the result only depends on the collaborator's answer for that one URL
(so the email and phone values are ignored). -/
theorem C5_dispatch_priority :
    ∀ (svc : String → String → Except String (Nat × AJson)) (d : EntDict),
      (d.urls = [] → d.emails = [] → d.phones = [] → analyze_entities svc d = none) ∧
      (∀ u us, d.urls = u :: us →
        analyze_entities svc d = some (analyze_url (svc "url" u) u) ∧
        (∀ svc2 : String → String → Except String (Nat × AJson),
          svc2 "url" u = svc "url" u → analyze_entities svc2 d = analyze_entities svc d)) ∧
      (d.urls = [] → ∀ e es, d.emails = e :: es →
        analyze_entities svc d = some (analyze_email (svc "email" e) e)) ∧
      (d.urls = [] → d.emails = [] → ∀ p ps, d.phones = p :: ps →
        analyze_entities svc d = some (analyze_phone (svc "phone" p) p)) := by
  intro svc d
  obtain ⟨us, es, ps⟩ := d
  refine ⟨fun h1 h2 h3 => ?_, fun u us2 h => ?_, fun h1 e es2 h => ?_,
          fun h1 h2 p ps2 h => ?_⟩
  · subst h1; subst h2; subst h3; rfl
  · simp only at h
    subst h
    exact ⟨rfl, fun svc2 h2 => by simp only [analyze_entities, h2]⟩
  · simp only at h1 h
    subst h1; subst h
    rfl
  · simp only at h1 h2 h
    subst h1; subst h2; subst h
    rfl

/-- Witness for C5 on the spec's scenario
`{urls: ["http://a.test"], emails: ["b@test.com"], phones: []}` with an
unreachable collaborator: only the URL is analyzed. -/
theorem C5_witness :
    analyze_entities (fun _ _ => .error "down")
      ⟨["http://a.test"], ["b@test.com"], []⟩ = some (urlFallback "http://a.test") := by
  have h := ((C5_dispatch_priority (fun _ _ => .error "down")
    ⟨["http://a.test"], ["b@test.com"], []⟩).2.1 "http://a.test" [] rfl).1
  exact h

/-! ### Claim C6: fallback on analysis failure -/

/-- Claim C6 (amended): each `analyze_*` call makes a single request with
no retry; the collaborator's JSON body is returned unchanged only on a
response with status code exactly 200; any other status (including other
2xx codes) and any transport error or timeout yield the synthesized
fallback with `risk_score = 50`, `verdict = "unknown"`, a single
could-not-verify reason, and no `found_in_db` key (which downstream trace
building defaults to `false`). -/
theorem C6_failure_fallback :
    ∀ (resp : Except String (Nat × AJson)) (v : String),
      (∀ err, resp = .error err →
        analyze_url resp v = urlFallback v ∧
        analyze_email resp v = emailFallback v ∧
        analyze_phone resp v = phoneFallback v) ∧
      (∀ st body, resp = .ok (st, body) →
        (st = 200 → analyze_url resp v = body ∧ analyze_email resp v = body ∧
          analyze_phone resp v = body) ∧
        (st ≠ 200 → analyze_url resp v = urlFallback v ∧
          analyze_email resp v = emailFallback v ∧
          analyze_phone resp v = phoneFallback v)) ∧
      (pyGet (urlFallback v) "risk_score" = some (JVal.jnum 50) ∧
       pyGet (urlFallback v) "verdict" = some (JVal.jstr "unknown") ∧
       pyGet (urlFallback v) "found_in_db" = none ∧
       pyGetD (urlFallback v) "found_in_db" (JVal.jbool false) = JVal.jbool false ∧
       pyGet (urlFallback v) "reasons" =
         some (JVal.jarrS ["No se pudo analizar el enlace. Procede con precaución."]) ∧
       pyGet (emailFallback v) "found_in_db" = none ∧
       pyGet (phoneFallback v) "found_in_db" = none) := by
  intro resp v
  refine ⟨fun err h => ?_, fun st body h => ?_, ?_⟩
  · subst h; exact ⟨rfl, rfl, rfl⟩
  · subst h
    refine ⟨fun h200 => ?_, fun hne => ?_⟩
    · subst h200; exact ⟨rfl, rfl, rfl⟩
    · simp [analyze_url, analyze_email, analyze_phone, hne]
  · refine ⟨rfl, rfl, rfl, rfl, rfl, rfl, rfl⟩

/-- Counterexample for C6 as stated: a 201 response is in the 2xx class,
but its body is not returned unchanged — the fallback is returned. -/
theorem C6_counterexample :
    analyze_url (Except.ok (201, [("risk_score", JVal.jnum 10)])) "http://x.es" =
      urlFallback "http://x.es" ∧
    urlFallback "http://x.es" ≠ [("risk_score", JVal.jnum 10)] := by
  refine ⟨rfl, ?_⟩
  intro h
  exact absurd (congrArg List.length h) (by decide)

/-- Witness for C6 at a 500 response and at a timeout. -/
theorem C6_witness :
    analyze_url (Except.ok (500, [])) "http://y.es" = urlFallback "http://y.es" ∧
    analyze_phone (Except.error "timeout") "612345678" = phoneFallback "612345678" := by
  refine ⟨((C6_failure_fallback (Except.ok (500, [])) "http://y.es").2.1 500 [] rfl).2
    (by decide) |>.1, ?_⟩
  exact ((C6_failure_fallback (Except.error "timeout") "612345678").1 "timeout" rfl).2.2

/-! ### Claim C2: intent-driven moods and the Report reply -/

set_option maxRecDepth 100000 in
/-- Claim C2 (code bug): `generate_response` has no `report` branch, so a
turn classified as Report falls into the trailing `else` — the reply is
built from the smalltalk template with mood `"happy"`, not from the fixed
Report template.  Evaluated here end to end on the message
`"quiero denunciar"` (classified Report) with an echoing generator: the
user prompt block is the formatted `SMALLTALK_PROMPT`, which differs from
`REPORT_PROMPT`.  The other intent-driven overrides
(Rescue → danger, Question → thinking, NeedsInfo → thinking,
Smalltalk → happy) do hold, as recorded on `full_block` below. -/
theorem C2_report_routed_to_smalltalk :
    (classify_intent "quiero denunciar").intent = Intent.report ∧
    chat ⟨fun t => (t, [], false), fun _ _ => .error "x",
          fun ms => .ok (ms.getLastD ⟨"", ""⟩).content, fun _ => (false, [])⟩
        ⟨"u1", "quiero denunciar", none⟩ =
      .ok ⟨"quiero denunciar\n\n" ++
             ((pyFormat SMALLTALK_PROMPT [("message", "quiero denunciar")]).toOption.getD ""),
           "happy", false, "report", false, none⟩ ∧
    ((pyFormat SMALLTALK_PROMPT [("message", "quiero denunciar")]).toOption.getD "")
      ≠ REPORT_PROMPT ∧
    full_block "rescue" "m" none =
      .ok ("m\n\n" ++ ((pyFormat RESCUE_PROMPT [("situation", "m")]).toOption.getD ""),
           "danger") ∧
    full_block "question" "m" none =
      .ok ("m\n\n" ++ ((pyFormat QUESTION_PROMPT [("topic", "m")]).toOption.getD ""),
           "thinking") ∧
    full_block "needs_info" "m" none =
      .ok ("m\n\n" ++ ((pyFormat NEEDS_INFO_PROMPT
              [("message", "m"),
               ("detected_context", detect_missing_info_context "m")]).toOption.getD ""),
           "thinking") ∧
    full_block "smalltalk" "m" none =
      .ok ("m\n\n" ++ ((pyFormat SMALLTALK_PROMPT [("message", "m")]).toOption.getD ""),
           "happy") := by
  refine ⟨by decide, rfl, by decide, rfl, rfl, rfl, rfl⟩

/-! ### Claim C10: `analysis_performed` vs `trace` -/

set_option maxRecDepth 100000 in
/-- Claim C10 (code bug): on an Analysis turn with an extracted entity the
equivalence `analysis_performed ↔ trace ≠ none` breaks both ways.  With a
collaborator answering 200 and an empty JSON object, the turn completes
with `analysis_performed = true` but `trace = none` (the `if
analysis_result:` truthiness guard).  With a collaborator failure, the
synthesized fallback is truthy, `generate_response` takes the analysis
branch, and `ANALYSIS_PROMPT.format` raises `KeyError("found_in_db")`
(the kwargs lack `found_in_db`/`source`), so no `ChatResponse` is produced
at all. -/
theorem C10_analysis_turn_divergence :
    chat ⟨fun t => (t, [], false), fun _ _ => .ok (200, []), fun _ => .ok "ok",
          fun _ => (true, [])⟩
        ⟨"u1", "analiza https://evil.com", none⟩ =
      .ok ⟨"ok", "happy", false, "analysis", true, none⟩ ∧
    chat ⟨fun t => (t, [], false), fun _ _ => .error "timeout", fun _ => .ok "ok",
          fun _ => (true, [])⟩
        ⟨"u1", "analiza https://evil.com", none⟩ = .error "found_in_db" := by
  exact ⟨rfl, rfl⟩

/-! ### Claim C8: output verifier is non-blocking -/

/-- Claim C8: the `response` field of the assembled `ChatResponse` is the
generated reply text unmodified, whatever the output PII verifier answers:
`chat` is invariant under replacing the verifier (in particular one that
reports the reply unsafe), and on completion the response text is exactly
the `generate_response` reply. -/
theorem C8_verifier_nonblocking :
    ∀ (env : Env) (v : String → Bool × List JVal) (req : ChatRequest),
      chat ⟨env.anonymize, env.analysisResp, env.llm, v⟩ req = chat env req ∧
      (∀ lr, generate_response env.llm (env.anonymize req.message).1
          (classify_intent req.message).intent.value req.context
          (analysisPhase env req.message).1 = .ok lr →
        chat env req = .ok ⟨lr.response, lr.mood, (env.anonymize req.message).2.2,
          (classify_intent req.message).intent.value,
          (analysisPhase env req.message).2,
          mkTraceOpt (analysisPhase env req.message).1⟩) := by
  intro env v req
  constructor
  · rfl
  · intro lr h
    unfold chat
    simp only [h]

/-- Witness for C8: a turn whose verifier flags the reply as unsafe still
returns the generated reply text unchanged. -/
theorem C8_witness :
    chat ⟨fun t => (t, [], false), fun _ _ => .error "na", fun _ => .ok "respuesta",
          fun _ => (false, [JVal.jstr "EMAIL"])⟩ ⟨"u9", "hola", none⟩ =
      .ok ⟨"respuesta", "happy", false, "smalltalk", false, none⟩ := by
  exact (C8_verifier_nonblocking
    ⟨fun t => (t, [], false), fun _ _ => .error "na", fun _ => .ok "respuesta",
     fun _ => (false, [JVal.jstr "EMAIL"])⟩
    (fun _ => (false, [JVal.jstr "EMAIL"])) ⟨"u9", "hola", none⟩).2
    ⟨"respuesta", "happy", none⟩ rfl

/-! ### Claim C9: generator failure fallback and the message list -/

theorem exceptMapOk {α β ε : Type} (f : α → β) (e : Except ε α) (b : β)
    (h : e.map f = .ok b) : ∃ a, e = .ok a ∧ f a = b := by
  cases e with
  | error err => simp [Except.map] at h
  | ok a =>
    refine ⟨a, rfl, ?_⟩
    simpa [Except.map] using h

/-- Claim C9: whenever the intent dispatch produces a prompt block, the
user message sent to the generator is the anonymized message, two
newlines, and that block; the full message list is one system-persona
message, then at most the last 10 caller-supplied context turns in order,
then that single user message; if the generator call fails the result is
the fixed apologetic fallback with mood `thinking` and the error detail
kept in the internal `error` field only, and if it succeeds the reply is
returned with the branch mood. -/
theorem C9_generation_failure_fallback :
    ∀ (llm : List Msg → Except String String) (um intent : String)
      (ctx : Option (List Msg)) (ar : Option AJson) (fm mood : String),
      full_block intent um ar = .ok (fm, mood) →
      (∃ block, fm = um ++ "\n\n" ++ block) ∧
      buildMessages ctx fm =
        ⟨"system", FY_SYSTEM_PROMPT⟩ :: (ctxWindow ctx ++ [⟨"user", fm⟩]) ∧
      (ctxWindow ctx).length ≤ 10 ∧
      (∀ l, ctx = some l → l = l.take (l.length - 10) ++ ctxWindow ctx) ∧
      (∀ e, llm (buildMessages ctx fm) = .error e →
        generate_response llm um intent ctx ar = .ok ⟨FALLBACK_REPLY, "thinking", some e⟩) ∧
      (∀ t, llm (buildMessages ctx fm) = .ok t →
        generate_response llm um intent ctx ar = .ok ⟨t, mood, none⟩) := by
  intro llm um intent ctx ar fm mood h
  have hgen : generate_response llm um intent ctx ar =
      (match llm (buildMessages ctx fm) with
       | .ok t => Except.ok (⟨t, mood, none⟩ : LLMResult)
       | .error e2 => Except.ok ⟨FALLBACK_REPLY, "thinking", some e2⟩) := by
    unfold generate_response
    rw [h]
  refine ⟨?_, rfl, ?_, ?_, ?_, ?_⟩
  · unfold full_block at h
    split_ifs at h <;>
      (obtain ⟨pa, _, hfa⟩ := exceptMapOk _ _ _ h
       exact ⟨pa, (congrArg Prod.fst hfa).symm⟩)
  · cases ctx with
    | none => simp [ctxWindow]
    | some l =>
      simp only [ctxWindow, List.length_drop]
      omega
  · intro l hl
    subst hl
    simp only [ctxWindow]
    exact (List.take_append_drop _ l).symm
  · intro e he
    rw [hgen, he]
  · intro t ht
    rw [hgen, ht]

/-- Witness for C9: a question turn whose generator raises `"boom"`
produces the fixed fallback with mood `thinking` (via the theorem), and a
full chat turn with a failing generator still completes with the fallback
reply. -/
theorem C9_witness :
    generate_response (fun _ => .error "boom") "hola" "question" none none =
      .ok ⟨FALLBACK_REPLY, "thinking", some "boom"⟩ ∧
    chat ⟨fun t => (t, [], false), fun _ _ => .error "na", fun _ => .error "boom",
          fun _ => (true, [])⟩ ⟨"u1", "hola, ¿qué es el phishing?", none⟩ =
      .ok ⟨FALLBACK_REPLY, "thinking", false, "question", false, none⟩ := by
  constructor
  · exact (C9_generation_failure_fallback (fun _ => .error "boom") "hola" "question"
      none none
      ((full_block "question" "hola" none).toOption.getD ("", "")).1 "thinking"
      (by rfl)).2.2.2.2.1 "boom" rfl
  · rfl

/-! ### Claims C3 and C4: deduplication and domain-collision suppression -/

/-- Every entity of the email pass has type `email`. -/
theorem emailEntities_type (text : String) :
    ∀ e ∈ emailEntities text, e.type = EntityType.email := by
  intro e he
  simp only [emailEntities, List.mem_map] at he
  obtain ⟨m, _, rfl⟩ := he
  rfl

/-- The deduplication relation: a later entity that is not an email has a
value different from every earlier entity's value. -/
def DedupRel (a b : Entity) : Prop :=
  b.type ≠ EntityType.email → a.value ≠ b.value

theorem pairwise_of_all_email :
    ∀ (l : List Entity), (∀ e ∈ l, e.type = EntityType.email) →
      List.Pairwise DedupRel l := by
  intro l
  induction l with
  | nil => intro _; exact List.Pairwise.nil
  | cons a t ih =>
    intro h
    refine List.Pairwise.cons (fun b hb hne => ?_) (ih (fun e he => h e (List.mem_cons_of_mem _ he)))
    exact absurd (h b (List.mem_cons_of_mem _ hb)) hne

/-- One loop step preserves the deduplication invariant: a candidate is
only appended when its value differs from every collected value. -/
theorem addCandidate_pairwise (ds : List String) (acc : List Entity) (c : Candidate)
    (hp : List.Pairwise DedupRel acc) :
    List.Pairwise DedupRel (addCandidate ds acc c) := by
  unfold addCandidate
  split_ifs with h1 h2
  · exact hp
  · exact hp
  · rw [List.pairwise_append]
    refine ⟨hp, List.pairwise_singleton _ _, ?_⟩
    intro a ha b hb
    simp only [List.mem_singleton] at hb
    subst hb
    intro _ hv
    simp only [List.any_eq_true, decide_eq_true_eq, not_exists, not_and] at h1
    exact h1 a ha hv

theorem foldl_addCandidate_pairwise (ds : List String) :
    ∀ (cs : List Candidate) (acc : List Entity),
      List.Pairwise DedupRel acc →
      List.Pairwise DedupRel (cs.foldl (addCandidate ds) acc) := by
  intro cs
  induction cs with
  | nil => intro acc h; exact h
  | cons c rest ih => intro acc h; exact ih _ (addCandidate_pairwise ds acc c h)

/-- Claim C3 (amended): URL and phone entities are deduplicated against
every previously collected value — for every text and every pair of
entities in extraction order, if the later one is not an email then their
values differ.  Email entities themselves are appended without a
duplicate check, so a repeated email value can appear twice (see the
counterexample). -/
theorem C3_values_distinct_except_repeated_emails :
    ∀ text, List.Pairwise DedupRel (extract_entities text) := by
  intro text
  unfold extract_entities
  exact foldl_addCandidate_pairwise _ _ _
    (pairwise_of_all_email _ (emailEntities_type text))

/-- Counterexample for C3 as stated: the same email twice in the text
yields two entities with equal `value`, so the values are not
pairwise-distinct. -/
theorem C3_counterexample :
    (extract_entities "a@b.es a@b.es").map Entity.value = ["a@b.es", "a@b.es"] ∧
    ¬ List.Pairwise (fun a b : Entity => a.value ≠ b.value)
        (extract_entities "a@b.es a@b.es") := by
  refine ⟨rfl, fun hp => ?_⟩
  have he : extract_entities "a@b.es a@b.es" =
      [⟨.email, "a@b.es", 0, 6⟩, ⟨.email, "a@b.es", 7, 13⟩] := rfl
  rw [he] at hp
  exact (List.pairwise_cons.mp hp).1 _ (List.mem_singleton.mpr rfl) rfl

/-- Witness for C3 on a text with URL, phone and email entities. -/
theorem C3_witness :
    List.Pairwise DedupRel
      (extract_entities "escribe a u@b.es o entra en b.es o llama al 612345678") :=
  C3_values_distinct_except_repeated_emails _

/-- Modelled from the spec: the claim's normalization of a URL candidate —
lower-case, strip the protocol, remove one leading `www.` (the code
instead extracts the host of `http...` values and removes every
occurrence of `www.`; see the counterexample). -/
def specNormUrl (value : String) : String :=
  let d := (lowerStr value).data
  let d :=
    if leadMatch "https://".data d then d.drop 8
    else if leadMatch "http://".data d then d.drop 7
    else d
  String.mk (if leadMatch "www.".data d then d.drop 4 else d)

/-- One loop step never appends a URL whose normalized value is a recorded
email domain. -/
theorem addCandidate_url_norm (ds : List String) (acc : List Entity) (c : Candidate)
    (hp : ∀ e ∈ acc, e.type = EntityType.url → codeNormUrl e.value ∉ ds) :
    ∀ e ∈ addCandidate ds acc c, e.type = EntityType.url → codeNormUrl e.value ∉ ds := by
  unfold addCandidate
  split_ifs with h1 h2
  · exact hp
  · exact hp
  · intro e he ht
    rw [List.mem_append] at he
    rcases he with he | he
    · exact hp e he ht
    · simp only [List.mem_singleton] at he
      subst he
      intro hin
      exact h2 ⟨ht, hin⟩

theorem foldl_addCandidate_url_norm (ds : List String) :
    ∀ (cs : List Candidate) (acc : List Entity),
      (∀ e ∈ acc, e.type = EntityType.url → codeNormUrl e.value ∉ ds) →
      ∀ e ∈ cs.foldl (addCandidate ds) acc,
        e.type = EntityType.url → codeNormUrl e.value ∉ ds := by
  intro cs
  induction cs with
  | nil => intro acc h; exact h
  | cons c rest ih => intro acc h; exact ih _ (addCandidate_url_norm ds acc c h)

/-- Every second-pass candidate is a URL or phone, never an email. -/
theorem secondPass_not_email (text : String) :
    ∀ c ∈ secondPassCandidates text, c.type ≠ EntityType.email := by
  intro c hc
  simp only [secondPassCandidates, List.mem_append, List.mem_flatten, List.mem_map] at hc
  rcases hc with ⟨l, ⟨r, _, rfl⟩, hcl⟩ | ⟨l, ⟨r, _, rfl⟩, hcl⟩ <;>
    (simp only [patCandidates, List.mem_map] at hcl
     obtain ⟨m, _, rfl⟩ := hcl
     exact fun hh => nomatch hh)

/-- A non-email loop step leaves the email entities of the accumulator
unchanged. -/
theorem addCandidate_filter_email (ds : List String) (acc : List Entity)
    (c : Candidate) (hc : c.type ≠ EntityType.email) :
    (addCandidate ds acc c).filter (fun e => e.type = EntityType.email) =
      acc.filter (fun e => e.type = EntityType.email) := by
  unfold addCandidate
  split_ifs
  · rfl
  · rfl
  · rw [List.filter_append]
    simp [hc]

theorem foldl_filter_email (ds : List String) :
    ∀ (cs : List Candidate) (acc : List Entity),
      (∀ c ∈ cs, c.type ≠ EntityType.email) →
      (cs.foldl (addCandidate ds) acc).filter (fun e => e.type = EntityType.email) =
        acc.filter (fun e => e.type = EntityType.email) := by
  intro cs
  induction cs with
  | nil => intro acc _; rfl
  | cons c rest ih =>
    intro acc h
    rw [List.foldl_cons,
        ih _ (fun c2 hc2 => h c2 (List.mem_cons_of_mem _ hc2)),
        addCandidate_filter_email ds acc c (h c (List.mem_cons_self _ _))]

/-- Claim C4 (amended): a URL candidate is discarded exactly against the
code's normalization (lower-case; for `http...` values the host between
the first `//` and the next `/`; then every occurrence of `www.` deleted):
no URL entity in the output normalizes to a recorded email domain.  Email
entities are never discarded (the extracted email entities are exactly the
email-pass matches), a phone candidate is never affected by the
suppression rule (only by value deduplication), and the spec's
`user@dominio.es` / bare `dominio.es` scenario yields no URL entity. -/
theorem C4_domain_collision_suppression :
    (∀ text, ∀ e ∈ extract_entities text,
      e.type = EntityType.url → codeNormUrl e.value ∉ emailDomainsOf text) ∧
    (∀ text, (extract_entities text).filter (fun e => e.type = EntityType.email) =
      emailEntities text) ∧
    (∀ (ds : List String) (acc : List Entity) (c : Candidate),
      c.type = EntityType.phone →
      addCandidate ds acc c =
        if acc.any (fun e => e.value = c.value) then acc
        else acc ++ [⟨c.type, c.value, c.start, c.endPos⟩]) ∧
    (extract_entities "user@dominio.es dominio.es").filter
      (fun e => e.type = EntityType.url) = [] := by
  refine ⟨?_, ?_, ?_, rfl⟩
  · intro text
    unfold extract_entities
    refine foldl_addCandidate_url_norm _ _ _ ?_
    intro e he ht
    rw [emailEntities_type text e he] at ht
    cases ht
  · intro text
    unfold extract_entities
    rw [foldl_filter_email _ _ _ (secondPass_not_email text)]
    rw [List.filter_eq_self.mpr]
    intro e he
    simp [emailEntities_type text e he]
  · intro ds acc c hc
    unfold addCandidate
    rw [hc]
    simp

/-- Counterexample for C4 as stated: in
`"u@sub.www.foo.es http://sub.www.foo.es"` the URL candidate
`http://sub.www.foo.es` normalizes under the claim's rule (protocol
stripped, leading `www.` removed, lower-cased) to exactly the recorded
email domain, so the claim says it is discarded — but the code keeps it
(its replace-all normalization gives `sub.foo.es` instead). -/
theorem C4_counterexample :
    specNormUrl "http://sub.www.foo.es" = "sub.www.foo.es" ∧
    emailDomainsOf "u@sub.www.foo.es http://sub.www.foo.es" = ["sub.www.foo.es"] ∧
    (⟨EntityType.url, "http://sub.www.foo.es", 17, 38⟩ : Entity) ∈
      extract_entities "u@sub.www.foo.es http://sub.www.foo.es" ∧
    codeNormUrl "http://sub.www.foo.es" = "sub.foo.es" := by
  refine ⟨rfl, rfl, ?_, rfl⟩
  decide

/-- Witness for C4: a URL entity that survives extraction normalizes to no
recorded email domain. -/
theorem C4_witness :
    (⟨EntityType.url, "otra.com", 16, 24⟩ : Entity) ∈
      extract_entities "user@dominio.es otra.com" ∧
    codeNormUrl "otra.com" ∉ emailDomainsOf "user@dominio.es otra.com" := by
  refine ⟨by decide, ?_⟩
  exact C4_domain_collision_suppression.1 "user@dominio.es otra.com"
    ⟨EntityType.url, "otra.com", 16, 24⟩ (by decide) rfl

/-! ### Claim C1: classification resolution order -/

/-- The fold result dominates every element of `b :: l`. -/
theorem pyMaxGo_le (f : Intent → ℕ) :
    ∀ (l : List Intent) (b j : Intent), j ∈ b :: l → f j ≤ f (pyMaxGo f b l) := by
  intro l
  induction l with
  | nil =>
    intro b j hj
    rw [List.mem_singleton] at hj
    subst hj
    exact Nat.le_refl _
  | cons i rest ih =>
    intro b j hj
    have hc : f b ≤ f (if f b < f i then i else b) ∧
        f i ≤ f (if f b < f i then i else b) := by
      split_ifs with h
      · exact ⟨Nat.le_of_lt h, Nat.le_refl _⟩
      · exact ⟨Nat.le_refl _, Nat.le_of_not_lt h⟩
    show f j ≤ f (pyMaxGo f (if f b < f i then i else b) rest)
    rcases List.mem_cons.mp hj with rfl | hj2
    · exact le_trans hc.1 (ih _ _ (List.mem_cons_self _ _))
    · rcases List.mem_cons.mp hj2 with rfl | hj3
      · exact le_trans hc.2 (ih _ _ (List.mem_cons_self _ _))
      · exact ih _ j (List.mem_cons_of_mem _ hj3)

/-- The fold result is the first maximal element: the list splits around it
with a strictly smaller prefix. -/
theorem pyMaxGo_split (f : Intent → ℕ) :
    ∀ (l : List Intent) (b : Intent),
      ∃ l₁ l₂, b :: l = l₁ ++ pyMaxGo f b l :: l₂ ∧
        ∀ a ∈ l₁, f a < f (pyMaxGo f b l) := by
  intro l
  induction l with
  | nil => exact fun b => ⟨[], [], rfl, by simp⟩
  | cons i rest ih =>
    intro b
    have hstep : pyMaxGo f b (i :: rest) = pyMaxGo f (if f b < f i then i else b) rest := rfl
    by_cases h : f b < f i
    · obtain ⟨l₁, l₂, heq, hlt⟩ := ih i
      have hbi : pyMaxGo f b (i :: rest) = pyMaxGo f i rest := by rw [hstep, if_pos h]
      refine ⟨b :: l₁, l₂, ?_, ?_⟩
      · rw [hbi, List.cons_append]
        exact congrArg (b :: ·) heq
      · intro a ha
        rw [hbi]
        have hr : f i ≤ f (pyMaxGo f i rest) := pyMaxGo_le f rest i i (List.mem_cons_self _ _)
        rcases List.mem_cons.mp ha with rfl | ha2
        · exact lt_of_lt_of_le h hr
        · exact hlt a ha2
    · obtain ⟨l₁, l₂, heq, hlt⟩ := ih b
      have hbb : pyMaxGo f b (i :: rest) = pyMaxGo f b rest := by rw [hstep, if_neg h]
      cases l₁ with
      | nil =>
        simp only [List.nil_append] at heq
        have hb : pyMaxGo f b rest = b := (List.cons.injEq _ _ _ _ ▸ heq).1.symm
        refine ⟨[], i :: rest, ?_, by simp⟩
        rw [hbb, hb]
        rfl
      | cons x t =>
        simp only [List.cons_append, List.cons.injEq] at heq
        obtain ⟨hx, hrest⟩ := heq
        subst hx
        refine ⟨b :: i :: t, l₂, ?_, ?_⟩
        · rw [hbb]
          simp only [List.cons_append]
          exact congrArg (fun z => b :: i :: z) hrest
        · intro a ha
          rw [hbb]
          have hbr : f b < f (pyMaxGo f b rest) := hlt b (List.mem_cons_self _ _)
          rcases List.mem_cons.mp ha with rfl | ha2
          · exact hbr
          · rcases List.mem_cons.mp ha2 with rfl | ha3
            · exact lt_of_le_of_lt (Nat.le_of_not_lt h) hbr
            · exact hlt a (List.mem_cons_of_mem _ ha3)

/-- `i` attains the maximum of `f` over `l`. -/
def isMaxIn (f : Intent → ℕ) (l : List Intent) (i : Intent) : Bool :=
  l.all (fun j => f j ≤ f i)

/-- The first element of `l` attaining the maximum of `f` over `l` — the
claim's tie-break (first in declaration order). -/
def firstMaxIn (f : Intent → ℕ) (l : List Intent) : Option Intent :=
  l.find? (isMaxIn f l)

theorem find?_append_middle {α : Type} (p : α → Bool) :
    ∀ (l₁ : List α) (r : α) (l₂ : List α),
      (∀ a ∈ l₁, p a = false) → p r = true →
      List.find? p (l₁ ++ r :: l₂) = some r := by
  intro l₁
  induction l₁ with
  | nil =>
    intro r l₂ _ hr
    rw [List.nil_append]
    exact List.find?_cons_of_pos _ hr
  | cons x t ih =>
    intro r l₂ hall hr
    rw [List.cons_append, List.find?_cons_of_neg _ (by simp [hall x (List.mem_cons_self _ _)])]
    exact ih r l₂ (fun a ha => hall a (List.mem_cons_of_mem _ ha)) hr

/-- Python's `max` over the score table equals the claim's rule: the first
element of the (declaration-ordered) list attaining the maximal score. -/
theorem firstMaxIn_eq_pyMaxGo (f : Intent → ℕ) (b : Intent) (l : List Intent) :
    firstMaxIn f (b :: l) = some (pyMaxGo f b l) := by
  obtain ⟨l₁, l₂, heq, hlt⟩ := pyMaxGo_split f l b
  have hmax : ∀ j ∈ b :: l, f j ≤ f (pyMaxGo f b l) := fun j hj => pyMaxGo_le f l b j hj
  unfold firstMaxIn
  rw [heq]
  apply find?_append_middle
  · intro a ha
    by_contra hne
    rw [Bool.not_eq_false] at hne
    simp only [isMaxIn, List.all_eq_true, decide_eq_true_eq] at hne
    have hra : f (pyMaxGo f b l) ≤ f a :=
      hne _ (List.mem_append_right _ (List.mem_cons_self _ _))
    exact absurd (hlt a ha) (Nat.not_lt.mpr hra)
  · simp only [isMaxIn, List.all_eq_true, decide_eq_true_eq]
    intro j hj
    exact hmax j (heq ▸ hj)

/-- Modelled from the spec: the claim's resolution order, word for word —
Analysis at score ≥ 2 with confidence `min(score/5, 1)`; else Rescue at
positive score (`/3`); else Report (`/2`); else NeedsInfo at positive
score when no Analysis regex pattern matches (`/3`); otherwise the
maximum-score intent among the remaining intents excluding NeedsInfo,
ties resolved to the variant first in declaration order, defaulting to
Question with confidence `0.3` and no triggers when that maximum is 0,
and confidence `min(score/3, 1)` otherwise. -/
def claimResolution (text : String) : IntentResult :=
  let hae := hasAnalyzableEntity text
  let sA := intentScore .analysis text
  if 2 ≤ sA then
    ⟨.analysis, min ((sA : ℚ) / 5) 1, intentTriggers .analysis text⟩
  else
    let sR := intentScore .rescue text
    if 0 < sR then
      ⟨.rescue, min ((sR : ℚ) / 3) 1, intentTriggers .rescue text⟩
    else
      let sP := intentScore .report text
      if 0 < sP then
        ⟨.report, min ((sP : ℚ) / 2) 1, intentTriggers .report text⟩
      else
        let sN := intentScore .needs_info text
        if 0 < sN ∧ hae = false then
          ⟨.needs_info, min ((sN : ℚ) / 3) 1, intentTriggers .needs_info text⟩
        else
          let best :=
            (firstMaxIn (fun i => intentScore i text) remainingIntents).getD .question
          let bestScore := intentScore best text
          if bestScore = 0 then
            ⟨.question, 3 / 10, []⟩
          else
            ⟨best, min ((bestScore : ℚ) / 3) 1, intentTriggers best text⟩

/-- Claim C1: `classify_intent` follows the claim's resolution order with
short-circuit, including the maximum-score rule with first-in-declaration-
order tie-break and the Question default, exactly — it coincides with the
`claimResolution` function transcribed from the claim. -/
theorem C1_resolution_order :
    ∀ text, classify_intent text = claimResolution text := by
  intro text
  have hmax := firstMaxIn_eq_pyMaxGo (fun i => intentScore i text) Intent.analysis
    [Intent.question, Intent.rescue, Intent.report, Intent.smalltalk]
  unfold classify_intent claimResolution
  rw [show remainingIntents =
        Intent.analysis :: [Intent.question, Intent.rescue, Intent.report, Intent.smalltalk]
      from rfl,
      hmax]
  rfl
